import Mathlib

/-!
Shallow embedding of `src/idb.js` (class `IndexedDBWrapper`), a thin
IndexedDB wrapper for financial records, together with proofs about the
claims of the specification.

Modelling choices:
* JavaScript values relevant to the code are embedded as `JSVal`
  (undefined, null, booleans, numbers with an explicit NaN case, strings,
  and date-like values abstracted by their calendar year and 1-based
  month, i.e. the values `new Date(v).getFullYear()` and
  `new Date(v).getMonth() + 1` produce on a date-like `v`; any value on
  which `new Date` yields an Invalid Date is a non-`datev` constructor,
  whose `getFullYear()` is NaN and hence `===`-equal to no number).
* JS numbers are modelled as `Rat` plus a NaN case (`JSNum`); the claims
  only involve small integer sums, where double arithmetic is exact.
* An IndexedDB object store with `keyPath: 'id'` and `autoIncrement` is
  an `ObjectStore`: the list of stored records in key order plus the next
  auto-increment key.  `put` of a record without an `id` appends with the
  fresh key; `getAll` returns the records in key order; `delete` removes
  the record with the given key and succeeds even when absent (host
  semantics).
* Records written through `addOrUpdate` always have a number-typed `sum`
  and a string `category` (the validation guards guarantee it), so stored
  records carry `sum : JSNum` and `category : String`.
* The in-place mutation `delete data.id` on the caller's object is
  modelled by the `data` field of `PutResult`, the caller's record object
  as it is after the call.
* Host-level transaction failures (`request.onerror`) are environment
  events outside the program text and are not modelled; each operation's
  result carries the success/rejection outcome the wrapper itself decides.
-/

/-- Embedded JavaScript values, as far as `idb.js` inspects them. -/
inductive JSVal where
  | undef
  | nullv
  | boolv (b : Bool)
  | numv (x : Rat)
  | nanv
  | strv (s : String)
  | datev (year : Int) (month : Int)
deriving DecidableEq, Repr

namespace JSVal

/-- JS truthiness: `undefined`, `null`, `false`, `0`, `NaN` and `""` are
falsy, everything else truthy. -/
def truthy : JSVal → Bool
  | undef => false
  | nullv => false
  | boolv b => b
  | numv x => decide (x ≠ 0)
  | nanv => false
  | strv s => decide (s ≠ "")
  | datev _ _ => true

/-- The string `typeof v` evaluates to. -/
def typeofStr : JSVal → String
  | undef => "undefined"
  | nullv => "object"
  | boolv _ => "boolean"
  | numv _ => "number"
  | nanv => "number"
  | strv _ => "string"
  | datev _ _ => "object"

/-- JS `v <= 0`.  `NaN <= 0` is `false`.  In `idb.js` this comparison is
only reached after `typeof v === 'number'` (the `||` short-circuits), so
only the number cases matter; the remaining cases are dead code. -/
def jsLeZero : JSVal → Bool
  | numv x => decide (x ≤ 0)
  | _ => false

/-- `new Date(v).getFullYear()`: the calendar year of a date-like value,
`none` standing for the NaN produced by an Invalid Date (NaN is
`===`-equal to no number, so such records match no requested year). -/
def dateYear : JSVal → Option Int
  | datev y _ => some y
  | _ => none

/-- `new Date(v).getMonth() + 1`: the 1-based calendar month of a
date-like value, `none` for an Invalid Date. -/
def dateMonthPlus1 : JSVal → Option Int
  | datev _ m => some m
  | _ => none

end JSVal

/-- A JS number: either NaN or an actual (rational) value. -/
inductive JSNum where
  | nan
  | val (x : Rat)
deriving DecidableEq, Repr

/-- The `JSVal` a `JSNum` denotes. -/
def JSNum.toVal : JSNum → JSVal
  | nan => .nanv
  | val x => .numv x

/-- JS `+` on numbers: NaN is absorbing. -/
def jsAdd : JSNum → JSNum → JSNum
  | .val a, .val b => .val (a + b)
  | _, _ => .nan

/-- Conversion used when storing a validated record: the guard
`typeof data.sum !== 'number'` has already failed, so the value is
`numv` or `nanv`; the default case is unreachable. -/
def JSVal.toNumD : JSVal → JSNum
  | .numv x => .val x
  | .nanv => .nan
  | _ => .val 0

/-- Conversion used when storing a validated record: the guard
`typeof data.category !== 'string'` has already failed, so the value is
`strv`; the default case is unreachable. -/
def JSVal.toStrD : JSVal → String
  | .strv s => s
  | _ => ""

/-- The caller-supplied record object handed to `addOrUpdate`: its three
inspected fields and whether it carries an `id` property. -/
structure RecordData where
  date : JSVal
  sum : JSVal
  category : JSVal
  hasId : Bool
deriving DecidableEq, Repr

/-- A record as it sits in the object store: the auto-assigned key and
the three data fields (number-typed sum and string category, guaranteed
by `addOrUpdate`'s validation, the only write path). -/
structure StoredRecord where
  id : Nat
  date : JSVal
  sum : JSNum
  category : String
deriving DecidableEq, Repr

/-- An auto-increment object store: records in key order, plus the next
key the store will assign. -/
structure ObjectStore where
  records : List StoredRecord
  nextKey : Nat
deriving DecidableEq, Repr

/-- One entry of a report object: category key, accumulated `totalSum`
and the matching records in iteration order.  The report object itself is
a list of entries in insertion order (JS objects iterate string keys in
insertion order). -/
structure ReportEntry where
  category : String
  totalSum : JSNum
  items : List StoredRecord
deriving DecidableEq, Repr

/-- Result of a report method: either the "no records" message string or
the report object. -/
inductive ReportResult where
  | msg (s : String)
  | report (entries : List ReportEntry)
deriving DecidableEq, Repr

/-- The entries of a report result; a message has none. -/
def ReportResult.entries : ReportResult → List ReportEntry
  | .msg _ => []
  | .report es => es

deriving instance DecidableEq for Except

/-- Outcome of `addOrUpdate`: the settled promise (`.error` a rejection,
`.ok` a resolution), the store afterwards, and the caller's record object
afterwards (it may have been mutated in place). -/
structure PutResult where
  outcome : Except String String
  store : ObjectStore
  data : RecordData
deriving DecidableEq, Repr

/-- Outcome of `delete`: the settled promise and the store afterwards. -/
structure OpResult where
  outcome : Except String String
  store : ObjectStore
deriving DecidableEq, Repr

namespace IndexedDBWrapper

/-- Rejection message of the `date` guard (`idb.js` line 57). -/
def dateRequiredMsg : String := "The `date` field is required."

/-- Rejection message of the `sum` guard (`idb.js` line 62). -/
def sumRequiredMsg : String :=
  "The `sum` field is required and must be a positive number."

/-- Rejection message of the `category` guard (`idb.js` line 67). -/
def categoryRequiredMsg : String :=
  "The `category` field is required and must be a string."

/-- `!data.date` (`idb.js` line 56). -/
def dateInvalid (data : RecordData) : Bool := !data.date.truthy

/-- `typeof data.sum !== 'number' || data.sum <= 0` (`idb.js` line 61). -/
def sumInvalid (data : RecordData) : Bool :=
  (data.sum.typeofStr != "number") || data.sum.jsLeZero

/-- `!data.category || typeof data.category !== 'string'`
(`idb.js` line 66). -/
def categoryInvalid (data : RecordData) : Bool :=
  !data.category.truthy || (data.category.typeofStr != "string")

/-- `IndexedDBWrapper.addOrUpdate` (`idb.js` lines 53-87): validate the
three fields in order, rejecting with the field's message and touching
neither the store nor the data; otherwise strip any caller-supplied `id`
(mutating the caller's object), `put` the record — the store assigns the
fresh auto-increment key — and resolve. -/
def addOrUpdate (st : ObjectStore) (data : RecordData) : PutResult :=
  if dateInvalid data then
    ⟨.error dateRequiredMsg, st, data⟩
  else if sumInvalid data then
    ⟨.error sumRequiredMsg, st, data⟩
  else if categoryInvalid data then
    ⟨.error categoryRequiredMsg, st, data⟩
  else
    let strippedData : RecordData := { data with hasId := false }
    let newRecord : StoredRecord :=
      ⟨st.nextKey, data.date, data.sum.toNumD, data.category.toStrD⟩
    ⟨.ok "Data added/updated successfully",
      ⟨st.records ++ [newRecord], st.nextKey + 1⟩, strippedData⟩

/-- `IndexedDBWrapper.getAll` (`idb.js` lines 94-108): all records in key
order. -/
def getAll (st : ObjectStore) : List StoredRecord := st.records

/-- `IndexedDBWrapper.delete` (`idb.js` lines 116-130): remove the record
with the given key; the host `delete` request succeeds whether or not
such a record exists. -/
def delete (st : ObjectStore) (key : Nat) : OpResult :=
  ⟨.ok "Record deleted successfully",
    ⟨st.records.filter (fun r => r.id != key), st.nextKey⟩⟩

/-- One step of the grouping loop shared by both reports (`idb.js` lines
152-161 and 193-202): if the category key is absent, create the entry
with `totalSum: 0, items: []`; then add `record.sum` to its `totalSum`
and push the record onto its `items`. -/
def addToReport (rep : List ReportEntry) (r : StoredRecord) :
    List ReportEntry :=
  if rep.any (fun e => e.category == r.category) then
    rep.map (fun e =>
      if e.category == r.category then
        ⟨e.category, jsAdd e.totalSum r.sum, e.items ++ [r]⟩
      else e)
  else
    rep ++ [⟨r.category, jsAdd (.val 0) r.sum, [r]⟩]

/-- The grouping loop: fold `addToReport` over the filtered records,
starting from the empty report object. -/
def groupByCategory (records : List StoredRecord) : List ReportEntry :=
  records.foldl addToReport []

/-- `IndexedDBWrapper.getYearlyReport` (`idb.js` lines 138-165): on an
entirely empty store return the message string; otherwise filter by
calendar year and group by category (even when the filtered set is
empty). -/
def getYearlyReport (st : ObjectStore) (year : Int) : ReportResult :=
  if st.records.length = 0 then
    .msg ("No records found for " ++ toString year ++ ".")
  else
    .report (groupByCategory
      (st.records.filter (fun r => r.date.dateYear == some year)))

/-- `recordDate.getMonth() + 1 === month && recordDate.getFullYear() === year`
(`idb.js` line 184). -/
def monthMatches (r : StoredRecord) (month year : Int) : Bool :=
  (r.date.dateMonthPlus1 == some month) && (r.date.dateYear == some year)

/-- `IndexedDBWrapper.getMonthlyReport` (`idb.js` lines 175-206): on an
entirely empty store return the message string; filter by month and year;
if the filtered set is empty return the same message string; otherwise
group by category. -/
def getMonthlyReport (st : ObjectStore) (month year : Int) : ReportResult :=
  if st.records.length = 0 then
    .msg ("No records found for " ++ toString month ++ "/" ++
      toString year ++ ".")
  else
    let monthlyRecords := st.records.filter (fun r => monthMatches r month year)
    if monthlyRecords.length = 0 then
      .msg ("No records found for " ++ toString month ++ "/" ++
        toString year ++ ".")
    else
      .report (groupByCategory monthlyRecords)

/-- Well-formedness of an auto-increment store: every stored key is below
the next key the store will assign.  Holds for every store reachable
through this wrapper and is preserved by all its operations. -/
def WF (st : ObjectStore) : Prop := ∀ r ∈ st.records, r.id < st.nextKey

end IndexedDBWrapper

namespace IndexedDBWrapper

/-! ### Sample data from the specification's test properties -/

/-- The record `{date: 2023-01-05, sum: 10, category: "food"}` as stored
with key 1. -/
def sampleJan2023 : StoredRecord := ⟨1, .datev 2023 1, .val 10, "food"⟩

/-- The record `{date: 2023-06-01, sum: 20, category: "food"}` as stored
with key 2. -/
def sampleJun2023 : StoredRecord := ⟨2, .datev 2023 6, .val 20, "food"⟩

/-- The record `{date: 2022-01-01, sum: 5, category: "food"}` as stored
with key 3. -/
def sampleJan2022 : StoredRecord := ⟨3, .datev 2022 1, .val 5, "food"⟩

/-- The three-record store of the specification's report examples. -/
def sampleStore : ObjectStore := ⟨[sampleJan2023, sampleJun2023, sampleJan2022], 4⟩

/-! ### Helper lemmas -/

/-- A validated `sum` round-trips through storage unchanged. -/
theorem toNumD_toVal (v : JSVal) (h : v.typeofStr = "number") :
    v.toNumD.toVal = v := by
  cases v <;> simp_all [JSVal.typeofStr, JSVal.toNumD, JSNum.toVal]

/-- A validated `category` round-trips through storage unchanged. -/
theorem toStrD_strv (v : JSVal) (h : v.typeofStr = "string") :
    JSVal.strv v.toStrD = v := by
  cases v <;> simp_all [JSVal.typeofStr, JSVal.toStrD]

/-- A record lands in the items of some entry of `addToReport rep x`
exactly when it was already in some entry of `rep` or is `x` itself. -/
theorem exists_mem_items_addToReport (rep : List ReportEntry)
    (x r : StoredRecord) :
    (∃ e ∈ addToReport rep x, r ∈ e.items) ↔
      (∃ e ∈ rep, r ∈ e.items) ∨ r = x := by
  unfold addToReport
  by_cases h : rep.any (fun e => e.category == x.category)
  · simp only [h, if_true]
    constructor
    · rintro ⟨e, he, hr⟩
      rw [List.mem_map] at he
      obtain ⟨e0, he0, rfl⟩ := he
      by_cases hc : e0.category == x.category
      · simp only [hc, if_true, List.mem_append, List.mem_singleton] at hr
        rcases hr with hr | hr
        · exact Or.inl ⟨e0, he0, hr⟩
        · exact Or.inr hr
      · simp only [hc, if_false] at hr
        exact Or.inl ⟨e0, he0, hr⟩
    · rintro (⟨e, he, hr⟩ | rfl)
      · by_cases hc : e.category == x.category
        · exact ⟨⟨e.category, jsAdd e.totalSum x.sum, e.items ++ [x]⟩,
            List.mem_map.mpr ⟨e, he, by simp [hc]⟩, by simp [hr]⟩
        · exact ⟨e, List.mem_map.mpr ⟨e, he, by simp [hc]⟩, hr⟩
      · rw [List.any_eq_true] at h
        obtain ⟨e, he, hc⟩ := h
        refine ⟨⟨e.category, jsAdd e.totalSum r.sum, e.items ++ [r]⟩,
          List.mem_map.mpr ⟨e, he, by simp [hc]⟩, by simp⟩
  · simp only [h, if_false]
    constructor
    · rintro ⟨e, he, hr⟩
      rcases List.mem_append.mp he with he | he
      · exact Or.inl ⟨e, he, hr⟩
      · rw [List.mem_singleton] at he
        subst he
        rw [List.mem_singleton] at hr
        exact Or.inr hr
    · rintro (⟨e, he, hr⟩ | rfl)
      · exact ⟨e, List.mem_append.mpr (Or.inl he), hr⟩
      · exact ⟨⟨r.category, jsAdd (.val 0) r.sum, [r]⟩,
          List.mem_append.mpr (Or.inr (List.mem_singleton.mpr rfl)),
          List.mem_singleton.mpr rfl⟩

/-- Folding the grouping step over a list adds exactly that list's
records to the items already present. -/
theorem exists_mem_items_foldl (l : List StoredRecord) (r : StoredRecord) :
    ∀ rep : List ReportEntry,
      (∃ e ∈ l.foldl addToReport rep, r ∈ e.items) ↔
        (∃ e ∈ rep, r ∈ e.items) ∨ r ∈ l := by
  induction l with
  | nil => intro rep; simp
  | cons x xs ih =>
      intro rep
      rw [List.foldl_cons, ih, exists_mem_items_addToReport, List.mem_cons]
      exact or_assoc

/-- The grouped report contains a record in some entry's items exactly
when the record was in the grouped list. -/
theorem exists_mem_items_groupByCategory (l : List StoredRecord)
    (r : StoredRecord) :
    (∃ e ∈ groupByCategory l, r ∈ e.items) ↔ r ∈ l := by
  rw [groupByCategory, exists_mem_items_foldl]
  simp

end IndexedDBWrapper

namespace IndexedDBWrapper

/-- C1: for every record whose `date` is missing, whose `sum` fails the
number/positivity guard, or whose `category` fails the non-empty-string
guard, `addOrUpdate` rejects with the distinct message of the first
violated field (checked in source order date, sum, category), the store
is untouched and the caller's object is not mutated. -/
theorem addOrUpdate_validation_rejects (st : ObjectStore)
    (data : RecordData) :
    (dateInvalid data = true →
      addOrUpdate st data = ⟨.error dateRequiredMsg, st, data⟩) ∧
    (dateInvalid data = false → sumInvalid data = true →
      addOrUpdate st data = ⟨.error sumRequiredMsg, st, data⟩) ∧
    (dateInvalid data = false → sumInvalid data = false →
      categoryInvalid data = true →
      addOrUpdate st data = ⟨.error categoryRequiredMsg, st, data⟩) ∧
    dateRequiredMsg ≠ sumRequiredMsg ∧
    dateRequiredMsg ≠ categoryRequiredMsg ∧
    sumRequiredMsg ≠ categoryRequiredMsg := by
  refine ⟨?_, ?_, ?_, by decide, by decide, by decide⟩
  · intro h1
    simp [addOrUpdate, h1]
  · intro h1 h2
    simp [addOrUpdate, h1, h2]
  · intro h1 h2 h3
    simp [addOrUpdate, h1, h2, h3]

/-- Witness for C1: a missing-date record, a zero-sum record and an
empty-category record are each rejected with the corresponding message,
with store and data untouched. -/
theorem addOrUpdate_validation_rejects_witness :
    addOrUpdate ⟨[], 1⟩ ⟨.undef, .numv 5, .strv "food", false⟩ =
      ⟨.error dateRequiredMsg, ⟨[], 1⟩, ⟨.undef, .numv 5, .strv "food", false⟩⟩ ∧
    addOrUpdate ⟨[], 1⟩ ⟨.datev 2023 1, .numv 0, .strv "food", false⟩ =
      ⟨.error sumRequiredMsg, ⟨[], 1⟩,
        ⟨.datev 2023 1, .numv 0, .strv "food", false⟩⟩ ∧
    addOrUpdate ⟨[], 1⟩ ⟨.datev 2023 1, .numv 5, .strv "", false⟩ =
      ⟨.error categoryRequiredMsg, ⟨[], 1⟩,
        ⟨.datev 2023 1, .numv 5, .strv "", false⟩⟩ :=
  ⟨(addOrUpdate_validation_rejects _ _).1 (by decide),
   (addOrUpdate_validation_rejects _ _).2.1 (by decide) (by decide),
   (addOrUpdate_validation_rejects _ _).2.2.1 (by decide) (by decide)
     (by decide)⟩

/-- C2: `getYearlyReport` returns the "no records" message string only
when the store is entirely empty; on a non-empty store in which no record
matches the requested year it returns the empty report object (zero
categories), not a message. -/
theorem getYearlyReport_message_policy (st : ObjectStore) (year : Int) :
    (st.records = [] →
      getYearlyReport st year =
        .msg ("No records found for " ++ toString year ++ ".")) ∧
    (st.records ≠ [] → (∀ r ∈ st.records, r.date.dateYear ≠ some year) →
      getYearlyReport st year = .report []) := by
  constructor
  · intro h
    simp [getYearlyReport, h]
  · intro h1 h2
    have hf : st.records.filter (fun r => r.date.dateYear == some year) = [] := by
      rw [List.filter_eq_nil_iff]
      intro a ha
      simpa using h2 a ha
    rw [getYearlyReport, if_neg (by simpa [List.length_eq_zero] using h1), hf]
    rfl

/-- Witness for C2: the empty store yields the message for 2023; a
one-record store whose only record is from 2022 yields the empty report
object for 2023. -/
theorem getYearlyReport_message_policy_witness :
    getYearlyReport ⟨[], 1⟩ 2023 =
      .msg ("No records found for " ++ toString (2023 : Int) ++ ".") ∧
    getYearlyReport ⟨[⟨1, .datev 2022 1, .val 5, "food"⟩], 2⟩ 2023 =
      .report [] :=
  ⟨(getYearlyReport_message_policy ⟨[], 1⟩ 2023).1 rfl,
   (getYearlyReport_message_policy ⟨[⟨1, .datev 2022 1, .val 5, "food"⟩], 2⟩
      2023).2 (by decide) (by decide)⟩

/-- C3: `getMonthlyReport` returns the "No records found" message string
both when the store is entirely empty and when the store is non-empty but
no record matches the month/year pair; when some record matches, it
returns a report object. -/
theorem getMonthlyReport_message_policy (st : ObjectStore)
    (month year : Int) :
    (st.records = [] →
      getMonthlyReport st month year =
        .msg ("No records found for " ++ toString month ++ "/" ++
          toString year ++ ".")) ∧
    (st.records ≠ [] → (∀ r ∈ st.records, monthMatches r month year = false) →
      getMonthlyReport st month year =
        .msg ("No records found for " ++ toString month ++ "/" ++
          toString year ++ ".")) ∧
    ((∃ r ∈ st.records, monthMatches r month year = true) →
      ∃ entries, getMonthlyReport st month year = .report entries) := by
  refine ⟨?_, ?_, ?_⟩
  · intro h
    simp [getMonthlyReport, h]
  · intro h1 h2
    have hf : st.records.filter (fun r => monthMatches r month year) = [] := by
      rw [List.filter_eq_nil_iff]
      intro a ha
      simp [h2 a ha]
    rw [getMonthlyReport, if_neg (by simpa [List.length_eq_zero] using h1)]
    simp only [hf]
    rfl
  · rintro ⟨r, hr, hm⟩
    have h1 : st.records ≠ [] := by
      intro h
      rw [h] at hr
      exact absurd hr (List.not_mem_nil r)
    have hf : r ∈ st.records.filter (fun r => monthMatches r month year) :=
      List.mem_filter.mpr ⟨hr, hm⟩
    have hne : st.records.filter (fun r => monthMatches r month year) ≠ [] := by
      intro h
      rw [h] at hf
      exact absurd hf (List.not_mem_nil r)
    refine ⟨groupByCategory
      (st.records.filter (fun r => monthMatches r month year)), ?_⟩
    have hlen : ¬(st.records.filter
        (fun r => monthMatches r month year)).length = 0 := by
      rw [List.length_eq_zero]
      exact hne
    rw [getMonthlyReport, if_neg (by simpa [List.length_eq_zero] using h1)]
    simp only [if_neg hlen]

/-- Witness for C3: the empty store and a store whose single record is
from June 2023 both yield the message for month 1 of 2023; the latter
store yields a report object for month 6 of 2023. -/
theorem getMonthlyReport_message_policy_witness :
    getMonthlyReport ⟨[], 1⟩ 1 2023 =
      .msg ("No records found for " ++ toString (1 : Int) ++ "/" ++
        toString (2023 : Int) ++ ".") ∧
    getMonthlyReport ⟨[⟨1, .datev 2023 6, .val 20, "food"⟩], 2⟩ 1 2023 =
      .msg ("No records found for " ++ toString (1 : Int) ++ "/" ++
        toString (2023 : Int) ++ ".") ∧
    (∃ entries,
      getMonthlyReport ⟨[⟨1, .datev 2023 6, .val 20, "food"⟩], 2⟩ 6 2023 =
        .report entries) :=
  ⟨(getMonthlyReport_message_policy ⟨[], 1⟩ 1 2023).1 rfl,
   (getMonthlyReport_message_policy ⟨[⟨1, .datev 2023 6, .val 20, "food"⟩], 2⟩
      1 2023).2.1 (by decide) (by decide),
   (getMonthlyReport_message_policy ⟨[⟨1, .datev 2023 6, .val 20, "food"⟩], 2⟩
      6 2023).2.2 ⟨⟨1, .datev 2023 6, .val 20, "food"⟩, by decide, by decide⟩⟩

end IndexedDBWrapper

namespace IndexedDBWrapper

/-- C4: on every validated record, `addOrUpdate` strips the
caller-supplied `id` before the put, the store assigns the fresh
auto-increment key — one no existing record carries — and the operation
appends a new record, leaving every existing record in place: update-by-id
is unreachable through this interface. -/
theorem addOrUpdate_always_inserts (st : ObjectStore) (data : RecordData)
    (hwf : WF st) (hd : dateInvalid data = false)
    (hs : sumInvalid data = false) (hc : categoryInvalid data = false) :
    (addOrUpdate st data).data.hasId = false ∧
    (addOrUpdate st data).store.records =
      st.records ++
        [⟨st.nextKey, data.date, data.sum.toNumD, data.category.toStrD⟩] ∧
    (∀ r ∈ st.records, r.id ≠ st.nextKey) ∧
    (addOrUpdate st data).outcome = .ok "Data added/updated successfully" :=
  ⟨by simp [addOrUpdate, hd, hs, hc],
   by simp [addOrUpdate, hd, hs, hc],
   fun r hr => Nat.ne_of_lt (hwf r hr),
   by simp [addOrUpdate, hd, hs, hc]⟩

/-- Witness for C4: upserting a valid record that carries an `id` into
the empty store strips the `id`, appends the record under the fresh key 1
and resolves. -/
theorem addOrUpdate_always_inserts_witness :
    (addOrUpdate ⟨[], 1⟩
      ⟨.datev 2023 1, .numv 10, .strv "food", true⟩).data.hasId = false ∧
    (addOrUpdate ⟨[], 1⟩
        ⟨.datev 2023 1, .numv 10, .strv "food", true⟩).store.records =
      ([] : List StoredRecord) ++
        [⟨1, JSVal.datev 2023 1, (JSVal.numv 10).toNumD,
          (JSVal.strv "food").toStrD⟩] ∧
    (∀ r ∈ ([] : List StoredRecord), r.id ≠ 1) ∧
    (addOrUpdate ⟨[], 1⟩
        ⟨.datev 2023 1, .numv 10, .strv "food", true⟩).outcome =
      .ok "Data added/updated successfully" :=
  addOrUpdate_always_inserts ⟨[], 1⟩
    ⟨.datev 2023 1, .numv 10, .strv "food", true⟩
    (fun r hr => absurd hr (List.not_mem_nil r))
    (by decide) (by decide) (by decide)

/-- C5: on the three-record sample store, `getYearlyReport` for 2023
returns the single category "food" with `totalSum` 30 and the two 2023
records as items, in store-iteration order. -/
theorem getYearlyReport_sample :
    getYearlyReport sampleStore 2023 =
      .report [⟨"food", .val 30, [sampleJan2023, sampleJun2023]⟩] := by
  simp [getYearlyReport, groupByCategory, addToReport, sampleStore,
    sampleJan2023, sampleJun2023, sampleJan2022, JSVal.dateYear, jsAdd]
  norm_num

/-- C6: `getMonthlyReport` selects exactly the records whose 1-based
calendar month (`getMonth() + 1`) equals the given month and whose
calendar year equals the given year — a record lands in some entry's
items precisely when it is in the store and matches both — and on the
sample store for month 1 of 2023 it returns the category "food" with
`totalSum` 10 and the January 2023 record as sole item. -/
theorem getMonthlyReport_selects_month :
    getMonthlyReport sampleStore 1 2023 =
      .report [⟨"food", .val 10, [sampleJan2023]⟩] ∧
    ∀ (st : ObjectStore) (month year : Int) (r : StoredRecord),
      (∃ e ∈ (getMonthlyReport st month year).entries, r ∈ e.items) ↔
        r ∈ st.records ∧ r.date.dateMonthPlus1 = some month ∧
          r.date.dateYear = some year := by
  constructor
  · simp [getMonthlyReport, groupByCategory, addToReport, monthMatches,
      sampleStore, sampleJan2023, sampleJun2023, sampleJan2022,
      JSVal.dateYear, JSVal.dateMonthPlus1, jsAdd]
  · intro st month year r
    simp only [getMonthlyReport]
    by_cases h0 : st.records.length = 0
    · rw [if_pos h0]
      have hnil : st.records = [] := List.length_eq_zero.mp h0
      simp [ReportResult.entries, hnil]
    · rw [if_neg h0]
      by_cases hf :
          (st.records.filter (fun r => monthMatches r month year)).length = 0
      · rw [if_pos hf]
        have hnil : st.records.filter (fun r => monthMatches r month year) = [] :=
          List.length_eq_zero.mp hf
        constructor
        · rintro ⟨e, he, _⟩
          exact absurd he (List.not_mem_nil e)
        · rintro ⟨hr, hm, hy⟩
          have hmem : r ∈ st.records.filter (fun r => monthMatches r month year) :=
            List.mem_filter.mpr ⟨hr, by simp [monthMatches, hm, hy]⟩
          rw [hnil] at hmem
          exact absurd hmem (List.not_mem_nil r)
      · rw [if_neg hf]
        rw [ReportResult.entries, exists_mem_items_groupByCategory,
          List.mem_filter]
        simp [monthMatches, and_assoc]

/-- C7: round-trip — upserting a valid record and then listing all
records yields a sequence containing a record whose date, sum and
category equal the input's, under a freshly assigned key no prior record
carried. -/
theorem addOrUpdate_getAll_roundTrip (st : ObjectStore) (data : RecordData)
    (hwf : WF st) (hd : dateInvalid data = false)
    (hs : sumInvalid data = false) (hc : categoryInvalid data = false) :
    ∃ r ∈ getAll (addOrUpdate st data).store,
      r.date = data.date ∧ r.sum.toVal = data.sum ∧
      JSVal.strv r.category = data.category ∧
      r.id = st.nextKey ∧ ∀ r0 ∈ st.records, r0.id ≠ r.id := by
  have hnum : data.sum.typeofStr = "number" := by
    rw [sumInvalid, Bool.or_eq_false_iff] at hs
    simpa using hs.1
  have hstr : data.category.typeofStr = "string" := by
    rw [categoryInvalid, Bool.or_eq_false_iff] at hc
    simpa using hc.2
  refine ⟨⟨st.nextKey, data.date, data.sum.toNumD, data.category.toStrD⟩,
    ?_, rfl, toNumD_toVal _ hnum, toStrD_strv _ hstr, rfl, ?_⟩
  · simp [getAll, addOrUpdate, hd, hs, hc]
  · intro r0 hr0
    exact Nat.ne_of_lt (hwf r0 hr0)

/-- Witness for C7: upserting a valid January 2023 record into the empty
store and listing all records yields a record with matching fields and a
fresh id. -/
theorem addOrUpdate_getAll_roundTrip_witness :
    ∃ r ∈ getAll (addOrUpdate ⟨[], 1⟩
        ⟨.datev 2023 1, .numv 10, .strv "food", false⟩).store,
      r.date = JSVal.datev 2023 1 ∧ r.sum.toVal = JSVal.numv 10 ∧
      JSVal.strv r.category = JSVal.strv "food" ∧
      r.id = 1 ∧ ∀ r0 ∈ ([] : List StoredRecord), r0.id ≠ r.id :=
  addOrUpdate_getAll_roundTrip ⟨[], 1⟩
    ⟨.datev 2023 1, .numv 10, .strv "food", false⟩
    (fun r hr => absurd hr (List.not_mem_nil r))
    (by decide) (by decide) (by decide)

end IndexedDBWrapper

namespace IndexedDBWrapper

/-- C8: for every store state and key, `delete` resolves successfully —
also when no record with that key exists, in which case the store is
unchanged — and the remaining records are exactly the previous ones whose
key differs, kept in their previous order. -/
theorem delete_removes_only_target (st : ObjectStore) (key : Nat) :
    (delete st key).outcome = .ok "Record deleted successfully" ∧
    List.Sublist (delete st key).store.records st.records ∧
    (∀ r : StoredRecord,
      r ∈ (delete st key).store.records ↔ r ∈ st.records ∧ r.id ≠ key) ∧
    ((∀ r ∈ st.records, r.id ≠ key) →
      delete st key = ⟨.ok "Record deleted successfully", st⟩) := by
  refine ⟨rfl, List.filter_sublist _, ?_, ?_⟩
  · intro r
    simp [delete, List.mem_filter]
  · intro h
    have hf : st.records.filter (fun r => r.id != key) = st.records := by
      rw [List.filter_eq_self]
      intro a ha
      simpa using h a ha
    simp [delete, hf]

/-- Witness for C8: deleting the absent key 7 from a one-record store
resolves and leaves the store unchanged. -/
theorem delete_removes_only_target_witness :
    delete ⟨[⟨2, .datev 2023 6, .val 20, "food"⟩], 3⟩ 7 =
      ⟨.ok "Record deleted successfully",
        ⟨[⟨2, .datev 2023 6, .val 20, "food"⟩], 3⟩⟩ :=
  (delete_removes_only_target
    ⟨[⟨2, .datev 2023 6, .val 20, "food"⟩], 3⟩ 7).2.2.2 (by decide)

/-- C9: a record with a present date, a non-empty string category and
`sum = NaN` passes validation (`typeof NaN` is `'number'` and
`NaN <= 0` is `false`), so `addOrUpdate` resolves and the NaN-sum record
reaches storage. -/
theorem nan_sum_reaches_storage :
    sumInvalid ⟨.datev 2023 1, .nanv, .strv "food", false⟩ = false ∧
    (addOrUpdate ⟨[], 1⟩
        ⟨.datev 2023 1, .nanv, .strv "food", false⟩).outcome =
      .ok "Data added/updated successfully" ∧
    (addOrUpdate ⟨[], 1⟩
        ⟨.datev 2023 1, .nanv, .strv "food", false⟩).store.records =
      [⟨1, .datev 2023 1, .nan, "food"⟩] :=
  ⟨rfl, rfl, rfl⟩

/-- C10: `addOrUpdate` mutates the caller's record object on the put
path — when the validated input carries an `id` property, that property
is deleted from the caller's own object, which after the call differs
from the object passed in and no longer has an `id`. -/
theorem addOrUpdate_mutates_caller_object (st : ObjectStore)
    (data : RecordData) (hd : dateInvalid data = false)
    (hs : sumInvalid data = false) (hc : categoryInvalid data = false)
    (hid : data.hasId = true) :
    (addOrUpdate st data).data.hasId = false ∧
    (addOrUpdate st data).data ≠ data := by
  have h1 : (addOrUpdate st data).data = { data with hasId := false } := by
    simp [addOrUpdate, hd, hs, hc]
  refine ⟨by rw [h1], ?_⟩
  rw [h1]
  intro h
  have h2 := congrArg RecordData.hasId h
  simp [hid] at h2

/-- Witness for C10: a valid record carrying an `id` comes back from the
call without it, an object different from the one passed in. -/
theorem addOrUpdate_mutates_caller_object_witness :
    (addOrUpdate ⟨[], 1⟩
        ⟨.datev 2023 1, .numv 10, .strv "food", true⟩).data.hasId = false ∧
    (addOrUpdate ⟨[], 1⟩
        ⟨.datev 2023 1, .numv 10, .strv "food", true⟩).data ≠
      ⟨.datev 2023 1, .numv 10, .strv "food", true⟩ :=
  addOrUpdate_mutates_caller_object ⟨[], 1⟩
    ⟨.datev 2023 1, .numv 10, .strv "food", true⟩
    (by decide) (by decide) (by decide) rfl

end IndexedDBWrapper
